import Mathlib

/-!
# gst-gtk-player: window-handle binding and surface-geometry bracketing

A shallow embedding of the callbacks of `src/main.c`:

* `on_about_to_finish`        (lines 70-78)
* `bus_sync_handler`          (lines 80-134)
* `on_frame_clock_after_paint` (lines 137-147, `WAYLAND_DEMO` only)
* `video_widget_realize_cb`   (lines 150-178)
* `video_widget_draw_cb`      (lines 180-206)

Each callback is a pure function from the `AppData` it receives to the new
`AppData` together with the list of calls it makes on its collaborators
(GStreamer elements, GLib logging), in program order.  The compile-time
switch `WAYLAND_DEMO` is the Boolean argument `wl`.  Pointers and
`guintptr` values are natural numbers, `0` being `NULL`.
-/

namespace GstGtkPlayer

/-- A pointer or a `guintptr`; `0` is `NULL`. -/
abbrev Ptr := Nat

/-- The toolkit rectangle `GtkAllocation` (four `gint` fields). -/
structure GtkAllocation where
  x : Int
  y : Int
  width : Int
  height : Int
deriving DecidableEq, Repr

/-- The largest value of a C `int`. -/
def INT_MAX : Int := 2147483647

/-- The fields of `struct AppData` (lines 34-51).  The four `WAYLAND_DEMO`
fields are present in both builds of the embedding; the other build never
touches them.  `argv` is the memory the pointer refers to: cell `i` holds
`some s` for a string and `none` for `NULL`; an index past the list is
outside the array. -/
structure AppData where
  video_window : Ptr
  app_window : Ptr
  pipeline : Ptr
  overlay : Ptr
  window_handle : Ptr
  wlvideo : Ptr
  display_handle : Ptr
  video_widget_allocation : GtkAllocation
  geometry_changing : Bool
  argv : List (Option String)
  current_uri : Int
deriving DecidableEq, Repr

/-- The state `struct AppData data = {0}` of `main` (line 290). -/
def AppData.zero : AppData :=
  { video_window := 0, app_window := 0, pipeline := 0, overlay := 0,
    window_handle := 0, wlvideo := 0, display_handle := 0,
    video_widget_allocation := ⟨0, 0, 0, 0⟩, geometry_changing := false,
    argv := [], current_uri := 0 }

/-- What a bus message is, as far as the two library predicates used by
`bus_sync_handler` can tell. -/
inductive MsgKind where
  | need_wayland_display_context
  | prepare_window_handle
  | other (tag : Nat)
deriving DecidableEq, Repr

/-- A `GstMessage`: its kind and `GST_MESSAGE_SRC`. -/
structure GstMessage where
  kind : MsgKind
  src : Ptr
deriving DecidableEq, Repr

/-- The library predicate tested at line 86. -/
def gst_is_wayland_display_handle_need_context_message (m : GstMessage) : Bool :=
  m.kind = MsgKind.need_wayland_display_context

/-- The library predicate tested at line 105. -/
def gst_is_video_overlay_prepare_window_handle_message (m : GstMessage) : Bool :=
  m.kind = MsgKind.prepare_window_handle

/-- The enumeration `GstBusSyncReply`. -/
inductive GstBusSyncReply where
  | GST_BUS_DROP
  | GST_BUS_PASS
  | GST_BUS_ASYNC
deriving DecidableEq, Repr

/-- The calls the callbacks make on their collaborators.  The `g_print` and
`g_warning` constructors stand for the log lines of the source, one
constructor per format string. -/
inductive Call where
  | g_print_now_playing (uri : Option String)
  | g_print_setting_window_handle (width height : Int)
  | g_print_end_geometry_change
  | g_print_draw_cb (x y width height : Int)
  | g_warning_display_handle
  | g_warning_window_handle
  | g_object_set_uri (object : Ptr) (uri : Option String)
  | gst_element_set_context (element : Ptr) (display : Ptr)
  | gst_video_overlay_set_window_handle (overlay : Ptr) (handle : Ptr)
  | gst_video_overlay_set_render_rectangle (overlay : Ptr) (x y width height : Int)
  | gst_wayland_video_begin_geometry_change (video : Ptr)
  | gst_wayland_video_end_geometry_change (video : Ptr)
  | gst_message_unref (message : GstMessage)
  | g_signal_connect_after_paint (frame_clock : Ptr)
deriving DecidableEq, Repr

/-- Reading `argv[i]`: `none` when the index is outside the array. -/
def argvAt (argv : List (Option String)) (i : Int) : Option (Option String) :=
  if i < 0 then none else argv.get? i.toNat

/-- The handler `on_about_to_finish` (lines 70-78).  The result is `none`
when the C code has no defined behaviour: `++d->current_uri` overflows or
an index is outside `argv`. -/
def on_about_to_finish (playbin : Ptr) (d : AppData) : Option (AppData × List Call) :=
  if d.current_uri ≥ INT_MAX then none
  else
    let d1 := { d with current_uri := d.current_uri + 1 }
    match argvAt d1.argv d1.current_uri with
    | none => none
    | some cell =>
      let d2 := if cell = none then { d1 with current_uri := 1 } else d1
      match argvAt d2.argv d2.current_uri with
      | none => none
      | some uri =>
        some (d2, [Call.g_print_now_playing uri, Call.g_object_set_uri playbin uri])

/-- The result of `bus_sync_handler`: the reply, the state it leaves and
the calls it made. -/
structure SyncResult where
  reply : GstBusSyncReply
  state : AppData
  calls : List Call
deriving DecidableEq, Repr

/-- The handler `bus_sync_handler` (lines 80-134); `wl` is `WAYLAND_DEMO`. -/
def bus_sync_handler (wl : Bool) (d : AppData) (message : GstMessage) : SyncResult :=
  if wl && gst_is_wayland_display_handle_need_context_message message then
    if d.display_handle ≠ 0 then
      { reply := GstBusSyncReply.GST_BUS_DROP
        state := { d with wlvideo := message.src }
        calls := [Call.gst_element_set_context message.src d.display_handle,
                  Call.gst_message_unref message] }
    else
      { reply := GstBusSyncReply.GST_BUS_DROP
        state := d
        calls := [Call.g_warning_display_handle, Call.gst_message_unref message] }
  else if gst_is_video_overlay_prepare_window_handle_message message then
    if d.window_handle ≠ 0 then
      let d1 := { d with overlay := message.src }
      let a := d1.video_widget_allocation
      { reply := GstBusSyncReply.GST_BUS_DROP
        state := d1
        calls :=
          (if wl then [Call.g_print_setting_window_handle a.width a.height] else [])
          ++ [Call.gst_video_overlay_set_window_handle d1.overlay d1.window_handle]
          ++ (if wl then
                [Call.gst_video_overlay_set_render_rectangle d1.overlay
                  a.x a.y a.width a.height]
              else [])
          ++ [Call.gst_message_unref message] }
    else
      { reply := GstBusSyncReply.GST_BUS_DROP
        state := d
        calls := [Call.g_warning_window_handle, Call.gst_message_unref message] }
  else
    { reply := GstBusSyncReply.GST_BUS_PASS, state := d, calls := [] }

/-- The handler `on_frame_clock_after_paint` (lines 137-147). -/
def on_frame_clock_after_paint (d : AppData) : AppData × List Call :=
  if d.geometry_changing then
    ({ d with geometry_changing := false },
     [Call.g_print_end_geometry_change,
      Call.gst_wayland_video_end_geometry_change d.wlvideo])
  else (d, [])

/-- What the toolkit hands to `video_widget_realize_cb`: the display
connection (`gdk_wayland_display_get_wl_display`), the window identifier
(`gdk_wayland_window_get_wl_surface`, or `GDK_WINDOW_XID`), the widget
allocation and the frame clock of the widget. -/
structure RealizeInfo where
  display : Ptr
  window : Ptr
  allocation : GtkAllocation
  frame_clock : Ptr
deriving DecidableEq, Repr

/-- The handler `video_widget_realize_cb` (lines 150-178). -/
def video_widget_realize_cb (wl : Bool) (d : AppData) (i : RealizeInfo) :
    AppData × List Call :=
  if wl then
    ({ d with display_handle := i.display, window_handle := i.window,
              video_widget_allocation := i.allocation },
     [Call.g_signal_connect_after_paint i.frame_clock])
  else
    ({ d with window_handle := i.window }, [])

/-- The handler `video_widget_draw_cb` (lines 180-206); `alloc` is what
`gtk_widget_get_allocation` yields for the widget. -/
def video_widget_draw_cb (wl : Bool) (d : AppData) (alloc : GtkAllocation) :
    AppData × List Call :=
  if wl then
    if d.window_handle = 0 then (d, [])
    else
      let d1 := { d with video_widget_allocation := alloc }
      let a := d1.video_widget_allocation
      let log := Call.g_print_draw_cb a.x a.y a.width a.height
      if d1.wlvideo ≠ 0 ∧ d1.overlay ≠ 0 ∧ d1.geometry_changing = false then
        ({ d1 with geometry_changing := true },
         [log, Call.gst_wayland_video_begin_geometry_change d1.wlvideo,
          Call.gst_video_overlay_set_render_rectangle d1.overlay
            a.x a.y a.width a.height])
      else (d1, [log])
  else (d, [])

/-- The events the callbacks are connected to: the `realize` and `draw`
signals of the video widget, the `after-paint` signal of its frame clock and
a message on the bus of the pipeline. -/
inductive Event where
  | realize (i : RealizeInfo)
  | draw (alloc : GtkAllocation)
  | after_paint
  | message (m : GstMessage)
deriving DecidableEq, Repr

/-- One event: the callback connected to it runs.  In the build without
`WAYLAND_DEMO` no callback is connected to `after-paint`. -/
def step (wl : Bool) (d : AppData) : Event → AppData × List Call
  | Event.realize i => video_widget_realize_cb wl d i
  | Event.draw alloc => video_widget_draw_cb wl d alloc
  | Event.after_paint => if wl then on_frame_clock_after_paint d else (d, [])
  | Event.message m => ((bus_sync_handler wl d m).state, (bus_sync_handler wl d m).calls)

/-- A sequence of events from state `d`: the final state and all calls made,
in order. -/
def run (wl : Bool) (d : AppData) : List Event → AppData × List Call
  | [] => (d, [])
  | e :: es => ((run wl (step wl d e).1 es).1, (step wl d e).2 ++ (run wl (step wl d e).1 es).2)

/-- The messages of an event sequence that the sync handler passes on to
default dispatch (reply `GST_BUS_PASS`). -/
def forwarded (wl : Bool) (d : AppData) : List Event → List GstMessage
  | [] => []
  | Event.message m :: es =>
    (if (bus_sync_handler wl d m).reply = GstBusSyncReply.GST_BUS_PASS then [m] else [])
      ++ forwarded wl (step wl d (Event.message m)).1 es
  | e :: es => forwarded wl (step wl d e).1 es

/-- The two message kinds the handler recognises in the given build. -/
def recognised (wl : Bool) (m : GstMessage) : Bool :=
  (wl && gst_is_wayland_display_handle_need_context_message m)
    || gst_is_video_overlay_prepare_window_handle_message m

/-- The bus messages of an event sequence, in order. -/
def messagesOf : List Event → List GstMessage
  | [] => []
  | Event.message m :: es => m :: messagesOf es
  | _ :: es => messagesOf es

/-- A bind-handle call (`gst_video_overlay_set_window_handle`). -/
def isSetWindowHandle : Call → Bool
  | Call.gst_video_overlay_set_window_handle _ _ => true
  | _ => false

/-- A set-rect call (`gst_video_overlay_set_render_rectangle`). -/
def isSetRenderRectangle : Call → Bool
  | Call.gst_video_overlay_set_render_rectangle _ _ _ _ _ => true
  | _ => false

/-- A begin- or end-geometry-change call. -/
def isGeometryChange : Call → Bool
  | Call.gst_wayland_video_begin_geometry_change _ => true
  | Call.gst_wayland_video_end_geometry_change _ => true
  | _ => false

/-- A call on a pipeline element, as opposed to a log line, the release of
the message or a signal connection. -/
def isElementCall : Call → Bool
  | Call.gst_element_set_context _ _ => true
  | Call.gst_video_overlay_set_window_handle _ _ => true
  | Call.gst_video_overlay_set_render_rectangle _ _ _ _ _ => true
  | Call.gst_wayland_video_begin_geometry_change _ => true
  | Call.gst_wayland_video_end_geometry_change _ => true
  | Call.g_object_set_uri _ _ => true
  | _ => false

/-- A begin-geometry-change call. -/
def isBegin : Call → Bool
  | Call.gst_wayland_video_begin_geometry_change _ => true
  | _ => false

/-- One call seen by an observer who tracks whether a geometry bracket is
open (`true`) or not: a begin while open and an end while not open are
violations (`none`); every other call leaves the bracket as it is. -/
def bracketStep (isOpen : Bool) : Call → Option Bool
  | Call.gst_wayland_video_begin_geometry_change _ => if isOpen then none else some true
  | Call.gst_wayland_video_end_geometry_change _ => if isOpen then some false else none
  | _ => some isOpen

/-- A whole trace seen by that observer: `none` if some call violates the
bracket discipline, otherwise whether a bracket is open at the end. -/
def bracketWalk (isOpen : Bool) : List Call → Option Bool
  | [] => some isOpen
  | c :: cs => (bracketStep isOpen c).bind (fun b => bracketWalk b cs)

/-- The handler `on_about_to_finish` run `n` times in a row, as the pipeline
does when it reaches the end of `n` streams; `none` as soon as one run has no
defined behaviour. -/
def about_to_finish_times (playbin : Ptr) : Nat → AppData → Option (AppData × List Call)
  | 0, d => some (d, [])
  | n + 1, d =>
    match on_about_to_finish playbin d with
    | none => none
    | some (d1, cs) =>
      match about_to_finish_times playbin n d1 with
      | none => none
      | some (d2, cs2) => some (d2, cs ++ cs2)

/-- The index after `n` end-of-stream signals when the playlist
`argv[1..argc-1]` is walked cyclically from index `c`. -/
def cycleIndex (argc c n : Nat) : Nat := 1 + (c - 1 + n) % (argc - 1)

/-- An `argv` as `main` receives it: `argc` strings followed by `NULL`. -/
def argvOf (args : List String) : List (Option String) := args.map some ++ [none]

/-- A call that hands a URI to the pipeline (`g_object_set (playbin, "uri", ...)`). -/
def isUriSet : Call → Bool
  | Call.g_object_set_uri _ _ => true
  | _ => false

/-- The rectangle of the most recent draw event of a sequence, `none` when
the sequence has no draw event. -/
def lastDrawRect : List Event → Option GtkAllocation
  | [] => none
  | Event.draw a :: es => (lastDrawRect es).orElse (fun _ => some a)
  | _ :: es => lastDrawRect es

/-- The window handle and the cached rectangle after an event sequence, read
off the events alone: a realize event stores its window identifier and its
allocation; a draw event stores its rectangle when the handle stored so far is
non-zero and is ignored otherwise; no other event touches either. -/
def lastKnownRect (handle : Ptr) (rect : GtkAllocation) : List Event → Ptr × GtkAllocation
  | [] => (handle, rect)
  | Event.realize i :: es => lastKnownRect i.window i.allocation es
  | Event.draw a :: es => lastKnownRect handle (if handle = 0 then rect else a) es
  | _ :: es => lastKnownRect handle rect es

/-- One call seen by an observer who tracks on which element a geometry
bracket is open (`none`: on no element): a begin while some bracket is open,
and an end addressed to another element than the one the bracket was opened
on, or with no bracket open, are violations. -/
def targetStep (opened : Option Ptr) : Call → Option (Option Ptr)
  | Call.gst_wayland_video_begin_geometry_change e =>
    if opened = none then some (some e) else none
  | Call.gst_wayland_video_end_geometry_change e =>
    if opened = some e then some none else none
  | _ => some opened

/-- A whole trace seen by that observer. -/
def targetWalk (opened : Option Ptr) : List Call → Option (Option Ptr)
  | [] => some opened
  | c :: cs => (targetStep opened c).bind (fun o => targetWalk o cs)

/-- Whether every begin-geometry-change that is directly followed by a
set-rect has that set-rect addressed to the same element. -/
def beginRectSameElement : List Call → Bool
  | [] => true
  | Call.gst_wayland_video_begin_geometry_change e ::
      Call.gst_video_overlay_set_render_rectangle o x y w h :: cs =>
    decide (e = o) &&
      beginRectSameElement (Call.gst_video_overlay_set_render_rectangle o x y w h :: cs)
  | _ :: cs => beginRectSameElement cs

/-- The property of one element per bracket: begin, the set-rect after it
and the closing end all go to the same element, and no element gets an end
without the matching begin. -/
def oneElementPerBracket (cs : List Call) : Bool :=
  (targetWalk none cs).isSome && beginRectSameElement cs

/-- The element a bracket is open on according to the state: `wlvideo` when
`geometry_changing` is set. -/
def openedOn (d : AppData) : Option Ptr :=
  if d.geometry_changing then some d.wlvideo else none

/-- Whether, in the Wayland build, some display-context-needed message of the
sequence rebinds `wlvideo` to a different element while the bracket is open. -/
def reboundWhileOpen (d : AppData) : List Event → Bool
  | [] => false
  | Event.message m :: es =>
    (d.geometry_changing && gst_is_wayland_display_handle_need_context_message m
        && decide (d.display_handle ≠ 0) && decide (m.src ≠ d.wlvideo))
      || reboundWhileOpen (step true d (Event.message m)).1 es
  | e :: es => reboundWhileOpen (step true d e).1 es

/-- The display handle and the geometry target after an event sequence, read
off the events alone: a realize event stores its display connection; a
display-context-needed message that finds the display handle set makes its
source the geometry target; no other event touches either. -/
def geometryTargetOf (display target : Ptr) : List Event → Ptr × Ptr
  | [] => (display, target)
  | Event.realize i :: es => geometryTargetOf i.display target es
  | Event.message m :: es =>
    geometryTargetOf display
      (if gst_is_wayland_display_handle_need_context_message m = true ∧ display ≠ 0
       then m.src else target) es
  | _ :: es => geometryTargetOf display target es

/-- The window handle and the overlay target after an event sequence, read
off the events alone: a realize event stores its window identifier; a
window-handle-needed message that finds the window handle set makes its
source the overlay target; no other event touches either. -/
def overlayTargetOf (handle target : Ptr) : List Event → Ptr × Ptr
  | [] => (handle, target)
  | Event.realize i :: es => overlayTargetOf i.window target es
  | Event.message m :: es =>
    overlayTargetOf handle
      (if gst_is_video_overlay_prepare_window_handle_message m = true ∧ handle ≠ 0
       then m.src else target) es
  | _ :: es => overlayTargetOf handle target es

/-- A realize event. -/
def isRealize : Event → Bool
  | Event.realize _ => true
  | _ => false

/-- How many realize events a sequence has. -/
def realizeCount : List Event → Nat
  | [] => 0
  | e :: es => (if isRealize e then 1 else 0) + realizeCount es

/-- A bus message of one of the two recognised kinds carries a reference to
the element it comes from: its source is not null.  Other events carry no
source. -/
def sourceNonNull : Event → Bool
  | Event.message m => !recognised true m || decide (m.src ≠ 0)
  | _ => true

/-! ## The sync handler alone -/

theorem bus_sync_handler_reply (wl : Bool) (d : AppData) (m : GstMessage) :
    (bus_sync_handler wl d m).reply =
      if recognised wl m then GstBusSyncReply.GST_BUS_DROP
      else GstBusSyncReply.GST_BUS_PASS := by
  unfold bus_sync_handler recognised
  cases wl <;> cases hk : m.kind <;>
    simp [gst_is_wayland_display_handle_need_context_message,
      gst_is_video_overlay_prepare_window_handle_message, hk] <;>
    split_ifs <;> rfl

theorem forwarded_eq_filter (wl : Bool) (evs : List Event) :
    ∀ d, forwarded wl d evs = (messagesOf evs).filter (fun m => !recognised wl m) := by
  induction evs with
  | nil => intro d; rfl
  | cons e es ih =>
    intro d
    cases e with
    | message m =>
      simp only [forwarded, messagesOf, List.filter_cons, ih, bus_sync_handler_reply]
      cases recognised wl m <;> simp
    | realize i => simp only [forwarded, messagesOf, ih]
    | draw a => simp only [forwarded, messagesOf, ih]
    | after_paint => simp only [forwarded, messagesOf, ih]

/-- C1: the sync handler replies DROP to every window-handle-needed message
and, in the Wayland build, to every display-context-needed message, whatever
the state; it replies PASS to every other message; so the messages forwarded
to default dispatch over any event sequence are exactly the messages of the
other kinds. -/
theorem bus_sync_handler_consumes_recognised (wl : Bool) :
    (∀ d S, (bus_sync_handler wl d ⟨MsgKind.prepare_window_handle, S⟩).reply
        = GstBusSyncReply.GST_BUS_DROP) ∧
    (∀ d S, (bus_sync_handler true d ⟨MsgKind.need_wayland_display_context, S⟩).reply
        = GstBusSyncReply.GST_BUS_DROP) ∧
    (∀ d m, recognised wl m = false →
        (bus_sync_handler wl d m).reply = GstBusSyncReply.GST_BUS_PASS ∧
        (bus_sync_handler wl d m).state = d ∧ (bus_sync_handler wl d m).calls = []) ∧
    (∀ d m, (bus_sync_handler wl d m).reply =
        if recognised wl m then GstBusSyncReply.GST_BUS_DROP
        else GstBusSyncReply.GST_BUS_PASS) ∧
    (∀ d evs, forwarded wl d evs = (messagesOf evs).filter (fun m => !recognised wl m)) ∧
    (∀ d evs, ∀ m ∈ forwarded wl d evs, recognised wl m = false) := by
  refine ⟨?_, ?_, ?_, ?_, ?_, ?_⟩
  · intro d S
    rw [bus_sync_handler_reply]
    cases wl <;> simp [recognised, gst_is_video_overlay_prepare_window_handle_message]
  · intro d S
    rw [bus_sync_handler_reply]
    simp [recognised, gst_is_wayland_display_handle_need_context_message]
  · intro d m hm
    unfold recognised at hm
    rw [Bool.or_eq_false_iff] at hm
    unfold bus_sync_handler
    rw [hm.1, hm.2]
    simp
  · intro d m
    exact bus_sync_handler_reply wl d m
  · intro d evs
    exact forwarded_eq_filter wl evs d
  · intro d evs m hm
    rw [forwarded_eq_filter] at hm
    simpa using (List.mem_filter.mp hm).2

/-- C2: when the stored window handle is non-zero, a window-handle-needed
message with source `S` makes `S` the overlay target, is dropped, and causes
exactly one bind-handle call, addressed to `S` with the stored handle. -/
theorem bus_sync_handler_binds_handle (wl : Bool) (d : AppData) (S : Ptr)
    (h : d.window_handle ≠ 0) :
    (bus_sync_handler wl d ⟨MsgKind.prepare_window_handle, S⟩).state.overlay = S ∧
    (bus_sync_handler wl d ⟨MsgKind.prepare_window_handle, S⟩).reply
      = GstBusSyncReply.GST_BUS_DROP ∧
    (bus_sync_handler wl d ⟨MsgKind.prepare_window_handle, S⟩).calls.filter isSetWindowHandle
      = [Call.gst_video_overlay_set_window_handle S d.window_handle] ∧
    ((bus_sync_handler wl d ⟨MsgKind.prepare_window_handle, S⟩).calls.filter
      isSetWindowHandle).length = 1 := by
  unfold bus_sync_handler
  cases wl <;>
    simp [gst_is_wayland_display_handle_need_context_message,
      gst_is_video_overlay_prepare_window_handle_message, h, isSetWindowHandle]

/-- C2, the scenario of the specification: handle `0x1234` stored, the
message comes from element `7`. -/
theorem bus_sync_handler_binds_handle_witness :
    ({ AppData.zero with window_handle := 0x1234 } : AppData).window_handle ≠ 0 ∧
    (bus_sync_handler true { AppData.zero with window_handle := 0x1234 }
      ⟨MsgKind.prepare_window_handle, 7⟩).state.overlay = 7 ∧
    (bus_sync_handler true { AppData.zero with window_handle := 0x1234 }
      ⟨MsgKind.prepare_window_handle, 7⟩).reply = GstBusSyncReply.GST_BUS_DROP ∧
    (bus_sync_handler true { AppData.zero with window_handle := 0x1234 }
      ⟨MsgKind.prepare_window_handle, 7⟩).calls.filter isSetWindowHandle
      = [Call.gst_video_overlay_set_window_handle 7 0x1234] :=
  ⟨by decide,
   (bus_sync_handler_binds_handle true { AppData.zero with window_handle := 0x1234 } 7
      (by decide)).1,
   (bus_sync_handler_binds_handle true { AppData.zero with window_handle := 0x1234 } 7
      (by decide)).2.1,
   (bus_sync_handler_binds_handle true { AppData.zero with window_handle := 0x1234 } 7
      (by decide)).2.2.1⟩

/-- C6: with window handle 0 a window-handle-needed message leaves the whole
state unchanged and causes no bind-handle and no set-rect call; with display
handle 0 a display-context-needed message (Wayland build) attaches no context
and leaves the state, `wlvideo` included, unchanged; in both cases the
handler returns, logs a warning and replies DROP. -/
theorem bus_sync_handler_skips_missing_handle (wl : Bool) (d1 d2 : AppData) (S : Ptr)
    (h1 : d1.window_handle = 0) (h2 : d2.display_handle = 0) :
    ((bus_sync_handler wl d1 ⟨MsgKind.prepare_window_handle, S⟩).state = d1 ∧
     (bus_sync_handler wl d1 ⟨MsgKind.prepare_window_handle, S⟩).reply
        = GstBusSyncReply.GST_BUS_DROP ∧
     (bus_sync_handler wl d1 ⟨MsgKind.prepare_window_handle, S⟩).calls
        = [Call.g_warning_window_handle,
           Call.gst_message_unref ⟨MsgKind.prepare_window_handle, S⟩] ∧
     (∀ c ∈ (bus_sync_handler wl d1 ⟨MsgKind.prepare_window_handle, S⟩).calls,
        isElementCall c = false)) ∧
    ((bus_sync_handler true d2 ⟨MsgKind.need_wayland_display_context, S⟩).state = d2 ∧
     (bus_sync_handler true d2 ⟨MsgKind.need_wayland_display_context, S⟩).reply
        = GstBusSyncReply.GST_BUS_DROP ∧
     (bus_sync_handler true d2 ⟨MsgKind.need_wayland_display_context, S⟩).calls
        = [Call.g_warning_display_handle,
           Call.gst_message_unref ⟨MsgKind.need_wayland_display_context, S⟩] ∧
     (∀ c ∈ (bus_sync_handler true d2 ⟨MsgKind.need_wayland_display_context, S⟩).calls,
        isElementCall c = false)) := by
  constructor
  · unfold bus_sync_handler
    cases wl <;>
      simp [gst_is_wayland_display_handle_need_context_message,
        gst_is_video_overlay_prepare_window_handle_message, h1, isElementCall]
  · unfold bus_sync_handler
    simp [gst_is_wayland_display_handle_need_context_message, h2, isElementCall]

/-- C6 at the state before realization, message source `7`. -/
theorem bus_sync_handler_skips_missing_handle_witness :
    AppData.zero.window_handle = 0 ∧ AppData.zero.display_handle = 0 ∧
    (bus_sync_handler true AppData.zero ⟨MsgKind.prepare_window_handle, 7⟩).state
      = AppData.zero ∧
    (bus_sync_handler true AppData.zero ⟨MsgKind.need_wayland_display_context, 7⟩).state
      = AppData.zero :=
  ⟨rfl, rfl,
   (bus_sync_handler_skips_missing_handle true AppData.zero AppData.zero 7 rfl rfl).1.1,
   (bus_sync_handler_skips_missing_handle true AppData.zero AppData.zero 7 rfl rfl).2.1⟩

theorem bus_sync_handler_writes (wl : Bool) (d : AppData) (m : GstMessage) :
    (bus_sync_handler wl d m).state =
      { d with overlay := (bus_sync_handler wl d m).state.overlay,
               wlvideo := (bus_sync_handler wl d m).state.wlvideo } ∧
    (bus_sync_handler wl d m).state.window_handle = d.window_handle ∧
    (bus_sync_handler wl d m).state.display_handle = d.display_handle ∧
    (bus_sync_handler wl d m).state.video_widget_allocation = d.video_widget_allocation ∧
    (bus_sync_handler wl d m).state.geometry_changing = d.geometry_changing ∧
    (wl = false → (bus_sync_handler wl d m).state.wlvideo = d.wlvideo) ∧
    (∀ c ∈ (bus_sync_handler wl d m).calls, isGeometryChange c = false) := by
  unfold bus_sync_handler
  cases wl <;> cases hk : m.kind <;>
    simp [gst_is_wayland_display_handle_need_context_message,
      gst_is_video_overlay_prepare_window_handle_message, hk] <;>
    split_ifs <;> simp [isGeometryChange]

/-- C7: the sync handler writes no field of the state other than `overlay`
and `wlvideo` (the latter only in the Wayland build): the window handle, the
display handle, the cached rectangle and the flag `geometry_changing` are the
same after the call as before; and it makes no begin- or end-geometry-change
call. -/
theorem bus_sync_handler_frame (wl : Bool) (d : AppData) (m : GstMessage) :
    (bus_sync_handler wl d m).state =
      { d with overlay := (bus_sync_handler wl d m).state.overlay,
               wlvideo := (bus_sync_handler wl d m).state.wlvideo } ∧
    (bus_sync_handler wl d m).state.window_handle = d.window_handle ∧
    (bus_sync_handler wl d m).state.display_handle = d.display_handle ∧
    (bus_sync_handler wl d m).state.video_widget_allocation = d.video_widget_allocation ∧
    (bus_sync_handler wl d m).state.geometry_changing = d.geometry_changing ∧
    (bus_sync_handler false d m).state.wlvideo = d.wlvideo ∧
    (bus_sync_handler wl d m).calls.filter isGeometryChange = [] := by
  have h := bus_sync_handler_writes wl d m
  refine ⟨h.1, h.2.1, h.2.2.1, h.2.2.2.1, h.2.2.2.2.1,
    (bus_sync_handler_writes false d m).2.2.2.2.2.1 rfl, ?_⟩
  rw [List.filter_eq_nil_iff]
  intro c hc
  simp [h.2.2.2.2.2.2 c hc]

/-! ## The callbacks case by case -/

theorem draw_no_handle (d : AppData) (R : GtkAllocation) (h : d.window_handle = 0) :
    video_widget_draw_cb true d R = (d, []) := by
  simp [video_widget_draw_cb, h]

theorem draw_opens (d : AppData) (R : GtkAllocation) (h : d.window_handle ≠ 0)
    (hc : d.wlvideo ≠ 0 ∧ d.overlay ≠ 0 ∧ d.geometry_changing = false) :
    video_widget_draw_cb true d R
      = ({ d with video_widget_allocation := R, geometry_changing := true },
         [Call.g_print_draw_cb R.x R.y R.width R.height,
          Call.gst_wayland_video_begin_geometry_change d.wlvideo,
          Call.gst_video_overlay_set_render_rectangle d.overlay R.x R.y R.width R.height]) := by
  simp only [video_widget_draw_cb, if_true]
  rw [if_neg h, if_pos hc]

theorem draw_stores_only (d : AppData) (R : GtkAllocation) (h : d.window_handle ≠ 0)
    (hc : ¬ (d.wlvideo ≠ 0 ∧ d.overlay ≠ 0 ∧ d.geometry_changing = false)) :
    video_widget_draw_cb true d R
      = ({ d with video_widget_allocation := R },
         [Call.g_print_draw_cb R.x R.y R.width R.height]) := by
  simp only [video_widget_draw_cb, if_true]
  rw [if_neg h, if_neg hc]

theorem after_paint_closes (d : AppData) (h : d.geometry_changing = true) :
    on_frame_clock_after_paint d
      = ({ d with geometry_changing := false },
         [Call.g_print_end_geometry_change,
          Call.gst_wayland_video_end_geometry_change d.wlvideo]) := by
  simp [on_frame_clock_after_paint, h]

theorem after_paint_idle (d : AppData) (h : d.geometry_changing = false) :
    on_frame_clock_after_paint d = (d, []) := by
  simp [on_frame_clock_after_paint, h]

/-! ## The geometry bracket -/

theorem bracketWalk_append (xs ys : List Call) :
    ∀ b, bracketWalk b (xs ++ ys) = (bracketWalk b xs).bind (fun b1 => bracketWalk b1 ys) := by
  induction xs with
  | nil => intro b; rfl
  | cons c cs ih =>
    intro b
    simp only [List.cons_append, bracketWalk]
    cases bracketStep b c with
    | none => rfl
    | some b1 => simpa using ih b1

theorem bus_sync_handler_bracketWalk (wl : Bool) (d : AppData) (m : GstMessage) (b : Bool) :
    bracketWalk b (bus_sync_handler wl d m).calls = some b ∧
    (bus_sync_handler wl d m).state.geometry_changing = d.geometry_changing := by
  unfold bus_sync_handler
  cases wl <;> cases hk : m.kind <;>
    simp [gst_is_wayland_display_handle_need_context_message,
      gst_is_video_overlay_prepare_window_handle_message, hk] <;>
    (try split_ifs) <;> simp [bracketWalk, bracketStep]

theorem step_bracketWalk (wl : Bool) (d : AppData) (e : Event) :
    bracketWalk d.geometry_changing (step wl d e).2
      = some (step wl d e).1.geometry_changing := by
  cases e with
  | realize i =>
    cases wl <;> simp [step, video_widget_realize_cb, bracketWalk, bracketStep]
  | draw a =>
    cases wl
    · simp [step, video_widget_draw_cb, bracketWalk]
    · simp only [step, video_widget_draw_cb, if_true]
      by_cases h0 : d.window_handle = 0
      · simp [h0, bracketWalk]
      · by_cases hc : d.wlvideo ≠ 0 ∧ d.overlay ≠ 0 ∧ d.geometry_changing = false
        · rw [if_neg h0, if_pos hc]
          simp [bracketWalk, bracketStep, hc.2.2]
        · rw [if_neg h0, if_neg hc]
          simp [bracketWalk, bracketStep]
  | after_paint =>
    cases wl
    · simp [step, bracketWalk]
    · simp only [step, on_frame_clock_after_paint, if_true]
      by_cases h1 : d.geometry_changing = true
      · rw [if_pos h1]
        simp [bracketWalk, bracketStep, h1]
      · rw [if_neg h1]
        simp [bracketWalk]
  | message m =>
    simp only [step]
    rw [(bus_sync_handler_bracketWalk wl d m d.geometry_changing).1,
      (bus_sync_handler_bracketWalk wl d m d.geometry_changing).2]

theorem run_bracketWalk (wl : Bool) (evs : List Event) :
    ∀ d, bracketWalk d.geometry_changing (run wl d evs).2
      = some (run wl d evs).1.geometry_changing := by
  induction evs with
  | nil => intro d; rfl
  | cons e es ih =>
    intro d
    simp only [run]
    rw [bracketWalk_append, step_bracketWalk]
    simpa using ih (step wl d e).1

/-- C3: over every event sequence from the zero-initialised state (and from
any other state) the trace never has an end-geometry-change while the bracket
is closed nor a begin-geometry-change while it is open, the observer's bracket
being the flag `geometry_changing` itself; an after-paint event in Idle makes
no call and changes nothing; the second of two consecutive draw events makes
no begin-geometry-change call. -/
theorem geometry_brackets_alternate (wl : Bool) (evs : List Event) :
    bracketWalk false (run wl AppData.zero evs).2
      = some (run wl AppData.zero evs).1.geometry_changing ∧
    (∀ d, bracketWalk d.geometry_changing (run wl d evs).2
      = some (run wl d evs).1.geometry_changing) ∧
    (∀ d : AppData,
      step wl { d with geometry_changing := false } Event.after_paint
        = ({ d with geometry_changing := false }, [])) ∧
    (∀ d R1 R2,
      (video_widget_draw_cb wl (video_widget_draw_cb wl d R1).1 R2).2.filter isBegin = []) := by
  refine ⟨run_bracketWalk wl evs AppData.zero, run_bracketWalk wl evs, ?_, ?_⟩
  · intro d
    cases wl <;> simp [step, on_frame_clock_after_paint]
  · intro d R1 R2
    cases wl
    · simp [video_widget_draw_cb]
    · unfold video_widget_draw_cb
      by_cases h0 : d.window_handle = 0
      · simp [h0]
      · by_cases hc : d.wlvideo ≠ 0 ∧ d.overlay ≠ 0 ∧ d.geometry_changing = false
        · simp [h0, hc, isBegin]
        · simp [h0, hc, isBegin]

theorem draws_while_pending (Rs : List GtkAllocation) :
    ∀ d : AppData, d.geometry_changing = true →
      (run true d (Rs.map Event.draw)).2.filter isElementCall = [] ∧
      (run true d (Rs.map Event.draw)).1.geometry_changing = true ∧
      (run true d (Rs.map Event.draw)).1.wlvideo = d.wlvideo := by
  induction Rs with
  | nil => intro d h; simp [run, h]
  | cons R Rs ih =>
    intro d h
    have hs : (step true d (Event.draw R)).2.filter isElementCall = [] ∧
        (step true d (Event.draw R)).1.geometry_changing = true ∧
        (step true d (Event.draw R)).1.wlvideo = d.wlvideo := by
      simp only [step]
      by_cases h0 : d.window_handle = 0
      · rw [draw_no_handle d R h0]
        simp [h]
      · rw [draw_stores_only d R h0 (by simp [h])]
        simp [h, isElementCall]
    have h2 := ih (step true d (Event.draw R)).1 hs.2.1
    simp only [List.map_cons, run, List.filter_append, hs.1, h2.1, h2.2.1, h2.2.2, hs.2.2]
    simp

theorem run_append (wl : Bool) (xs ys : List Event) :
    ∀ d, run wl d (xs ++ ys)
      = ((run wl (run wl d xs).1 ys).1, (run wl d xs).2 ++ (run wl (run wl d xs).1 ys).2) := by
  induction xs with
  | nil => intro d; simp [run]
  | cons e es ih =>
    intro d
    show run wl d (e :: (es ++ ys)) = _
    simp only [run, ih, List.append_assoc]

/-- C4: in the Wayland build, from an Idle state with the window handle set
and both `wlvideo` and `overlay` equal to a non-null element `E`, a draw event
with allocation `R` logs, calls begin-geometry-change on `E` and then set-rect
`R` on `E` (no other element call), caches `R` and sets the flag; the next
after-paint event, directly or after further draw events, makes exactly one
element call, end-geometry-change on `E`, and clears the flag. -/
theorem draw_opens_after_paint_closes (d : AppData) (E : Ptr) (R : GtkAllocation)
    (hidle : d.geometry_changing = false) (hh : d.window_handle ≠ 0) (hE : E ≠ 0)
    (hw : d.wlvideo = E) (ho : d.overlay = E) :
    (video_widget_draw_cb true d R).2
      = [Call.g_print_draw_cb R.x R.y R.width R.height,
         Call.gst_wayland_video_begin_geometry_change E,
         Call.gst_video_overlay_set_render_rectangle E R.x R.y R.width R.height] ∧
    (video_widget_draw_cb true d R).2.filter isElementCall
      = [Call.gst_wayland_video_begin_geometry_change E,
         Call.gst_video_overlay_set_render_rectangle E R.x R.y R.width R.height] ∧
    (video_widget_draw_cb true d R).1
      = { d with video_widget_allocation := R, geometry_changing := true } ∧
    (on_frame_clock_after_paint (video_widget_draw_cb true d R).1).2.filter isElementCall
      = [Call.gst_wayland_video_end_geometry_change E] ∧
    (on_frame_clock_after_paint (video_widget_draw_cb true d R).1).1
      = { d with video_widget_allocation := R, geometry_changing := false } ∧
    (∀ Rs : List GtkAllocation,
      (run true (video_widget_draw_cb true d R).1
          (Rs.map Event.draw ++ [Event.after_paint])).2.filter isElementCall
        = [Call.gst_wayland_video_end_geometry_change E] ∧
      (run true (video_widget_draw_cb true d R).1
          (Rs.map Event.draw ++ [Event.after_paint])).1.geometry_changing = false) := by
  have hdraw : video_widget_draw_cb true d R
      = ({ d with video_widget_allocation := R, geometry_changing := true },
         [Call.g_print_draw_cb R.x R.y R.width R.height,
          Call.gst_wayland_video_begin_geometry_change E,
          Call.gst_video_overlay_set_render_rectangle E R.x R.y R.width R.height]) := by
    rw [draw_opens d R hh ⟨by rw [hw]; exact hE, by rw [ho]; exact hE, hidle⟩, hw, ho]
  refine ⟨by rw [hdraw], by rw [hdraw]; simp [isElementCall], by rw [hdraw], ?_, ?_, ?_⟩
  · rw [hdraw, after_paint_closes _ rfl]
    simp [isElementCall, hw]
  · rw [hdraw, after_paint_closes _ rfl]
  · intro Rs
    rw [hdraw, run_append]
    have h := draws_while_pending Rs
      { d with video_widget_allocation := R, geometry_changing := true } rfl
    simp only [List.filter_append, h.1, List.nil_append]
    simp only [run, step, if_true, List.append_nil]
    rw [after_paint_closes _ h.2.1, h.2.2]
    simp [isElementCall, hw]

/-- C4, the scenario of the specification: rectangle `{0,0,320,240}`, element
`7`, window handle `0x1234`. -/
theorem draw_opens_after_paint_closes_witness :
    (video_widget_draw_cb true
        { AppData.zero with window_handle := 0x1234, wlvideo := 7, overlay := 7 }
        ⟨0, 0, 320, 240⟩).2.filter isElementCall
      = [Call.gst_wayland_video_begin_geometry_change 7,
         Call.gst_video_overlay_set_render_rectangle 7 0 0 320 240] ∧
    (on_frame_clock_after_paint (video_widget_draw_cb true
        { AppData.zero with window_handle := 0x1234, wlvideo := 7, overlay := 7 }
        ⟨0, 0, 320, 240⟩).1).2.filter isElementCall
      = [Call.gst_wayland_video_end_geometry_change 7] :=
  ⟨(draw_opens_after_paint_closes
      { AppData.zero with window_handle := 0x1234, wlvideo := 7, overlay := 7 } 7
      ⟨0, 0, 320, 240⟩ rfl (by decide) (by decide) rfl rfl).2.1,
   (draw_opens_after_paint_closes
      { AppData.zero with window_handle := 0x1234, wlvideo := 7, overlay := 7 } 7
      ⟨0, 0, 320, 240⟩ rfl (by decide) (by decide) rfl rfl).2.2.2.1⟩

/-! ## Looping over the URIs -/

theorem argvAt_arg (args : List String) (i : Nat) (h : i < args.length) :
    argvAt (argvOf args) (i : Int) = some (some (args.get ⟨i, h⟩)) := by
  unfold argvAt argvOf
  have h0 : ¬ ((i : Int) < 0) := by omega
  rw [if_neg h0]
  simp [List.getElem?_append_left, h]

theorem argvAt_null (args : List String) :
    argvAt (argvOf args) (args.length : Int) = some none := by
  unfold argvAt argvOf
  have h0 : ¬ ((args.length : Int) < 0) := by omega
  rw [if_neg h0]
  simp

theorem on_about_to_finish_next (pb : Ptr) (d : AppData) (args : List String) (c : Nat)
    (hargv : d.argv = argvOf args) (hint : (args.length : Int) ≤ INT_MAX)
    (hc : d.current_uri = (c : Int)) (h1 : c + 1 < args.length) :
    on_about_to_finish pb d
      = some ({ d with current_uri := ((c + 1 : Nat) : Int) },
          [Call.g_print_now_playing (some (args.get ⟨c + 1, h1⟩)),
           Call.g_object_set_uri pb (some (args.get ⟨c + 1, h1⟩))]) := by
  unfold on_about_to_finish
  have hov : ¬ (d.current_uri ≥ INT_MAX) := by rw [hc]; omega
  rw [if_neg hov]
  simp only [hargv, hc]
  have e : ((c : Int) + 1) = ((c + 1 : Nat) : Int) := by push_cast; rfl
  rw [e, argvAt_arg args (c + 1) h1]
  simp only [reduceCtorEq, if_false, argvAt_arg args (c + 1) h1]

theorem on_about_to_finish_wrap (pb : Ptr) (d : AppData) (args : List String) (c : Nat)
    (hargv : d.argv = argvOf args) (hint : (args.length : Int) ≤ INT_MAX)
    (hc : d.current_uri = (c : Int)) (h1 : c + 1 = args.length) (h2 : 1 < args.length) :
    on_about_to_finish pb d
      = some ({ d with current_uri := 1 },
          [Call.g_print_now_playing (some (args.get ⟨1, h2⟩)),
           Call.g_object_set_uri pb (some (args.get ⟨1, h2⟩))]) := by
  unfold on_about_to_finish
  have hov : ¬ (d.current_uri ≥ INT_MAX) := by rw [hc]; omega
  rw [if_neg hov]
  simp only [hargv, hc]
  have e : ((c : Int) + 1) = ((args.length : Nat) : Int) := by rw [← h1]; push_cast; rfl
  rw [e, argvAt_null args]
  have e1 : (1 : Int) = ((1 : Nat) : Int) := rfl
  simp only [if_true]
  rw [e1, argvAt_arg args 1 h2]

theorem cycleIndex_one (argc c : Nat) (h1 : 1 ≤ c) (h2 : c ≤ argc - 1) :
    cycleIndex argc c 1 = if c < argc - 1 then c + 1 else 1 := by
  unfold cycleIndex
  have e : c - 1 + 1 = c := by omega
  rw [e]
  split_ifs with h
  · rw [Nat.mod_eq_of_lt h]; omega
  · have : c = argc - 1 := by omega
    rw [this, Nat.mod_self]

theorem cycleIndex_zero (argc c : Nat) (h1 : 1 ≤ c) (h2 : c ≤ argc - 1) :
    cycleIndex argc c 0 = c := by
  unfold cycleIndex
  rw [Nat.add_zero, Nat.mod_eq_of_lt (by omega)]
  omega

theorem cycleIndex_range (argc c n : Nat) (hlen : 2 ≤ argc) :
    1 ≤ cycleIndex argc c n ∧ cycleIndex argc c n ≤ argc - 1 := by
  unfold cycleIndex
  have : (c - 1 + n) % (argc - 1) < argc - 1 := Nat.mod_lt _ (by omega)
  omega

theorem cycleIndex_succ (argc c n : Nat) :
    cycleIndex argc (cycleIndex argc c 1) n = cycleIndex argc c (n + 1) := by
  unfold cycleIndex
  have e : 1 + (c - 1 + 1) % (argc - 1) - 1 + n = (c - 1 + 1) % (argc - 1) + n := by omega
  rw [e, Nat.add_mod, Nat.mod_mod, ← Nat.add_mod]
  have e2 : c - 1 + 1 + n = c - 1 + (n + 1) := by omega
  rw [e2]

theorem on_about_to_finish_step (pb : Ptr) (d : AppData) (args : List String) (c : Nat)
    (hargv : d.argv = argvOf args) (hlen : 2 ≤ args.length)
    (hint : (args.length : Int) ≤ INT_MAX)
    (hc : d.current_uri = (c : Int)) (h1 : 1 ≤ c) (h2 : c ≤ args.length - 1) :
    ∃ s, args.get? (cycleIndex args.length c 1) = some s ∧
      on_about_to_finish pb d
        = some ({ d with current_uri := ((cycleIndex args.length c 1 : Nat) : Int) },
            [Call.g_print_now_playing (some s), Call.g_object_set_uri pb (some s)]) := by
  rw [cycleIndex_one args.length c h1 h2]
  by_cases h : c < args.length - 1
  · rw [if_pos h]
    have hlt : c + 1 < args.length := by omega
    exact ⟨args.get ⟨c + 1, hlt⟩, by simp [List.getElem?_eq_getElem hlt],
      on_about_to_finish_next pb d args c hargv hint hc hlt⟩
  · rw [if_neg h]
    have hlt : 1 < args.length := by omega
    exact ⟨args.get ⟨1, hlt⟩, by simp [List.getElem?_eq_getElem hlt],
      on_about_to_finish_wrap pb d args c hargv hint hc (by omega) hlt⟩

theorem about_to_finish_times_spec (pb : Ptr) (args : List String) (hlen : 2 ≤ args.length)
    (hint : (args.length : Int) ≤ INT_MAX) (n : Nat) :
    ∀ (d : AppData) (c : Nat), d.argv = argvOf args → d.current_uri = (c : Int) →
      1 ≤ c → c ≤ args.length - 1 →
      ∃ cs, about_to_finish_times pb n d
          = some ({ d with current_uri := ((cycleIndex args.length c n : Nat) : Int) }, cs) ∧
        cs.filter isUriSet = (List.range n).map
          (fun k => Call.g_object_set_uri pb (args.get? (cycleIndex args.length c (k + 1)))) := by
  induction n with
  | zero =>
    intro d c _ hc h1 h2
    refine ⟨[], ?_, by simp⟩
    rw [cycleIndex_zero args.length c h1 h2, ← hc]
    rfl
  | succ n ih =>
    intro d c hargv hc h1 h2
    obtain ⟨s, hs, hstep⟩ := on_about_to_finish_step pb d args c hargv hlen hint hc h1 h2
    have hr := cycleIndex_range args.length c 1 hlen
    obtain ⟨cs, hcs, hf⟩ := ih
      { d with current_uri := ((cycleIndex args.length c 1 : Nat) : Int) }
      (cycleIndex args.length c 1) hargv rfl hr.1 hr.2
    refine ⟨[Call.g_print_now_playing (some s), Call.g_object_set_uri pb (some s)] ++ cs, ?_, ?_⟩
    · simp only [about_to_finish_times, hstep, hcs, cycleIndex_succ]
    · rw [List.filter_append, hf, List.range_succ_eq_map, List.map_cons, List.map_map]
      simp only [List.filter, isUriSet, hs, List.cons_append, List.nil_append]
      congr 1
      apply List.map_congr_left
      intro k _
      simp only [Function.comp, cycleIndex_succ]

/-- C10: for an `argv` of `argc >= 2` strings followed by `NULL` (`argc` being
a C `int`) and an index `1 <= c <= argc-1`, `on_about_to_finish` has defined
behaviour (every index it reads lies inside `argv[0..argc]`), sets
`current_uri` to `c+1` when `c < argc-1` and to `1` when `c = argc-1`, an
index again in `[1, argc-1]`, and hands the non-NULL string `argv[new index]`
to the pipeline; run `n` times it leaves the index `1 + (c-1+n) mod (argc-1)`
and has handed over the URIs at the indices `1 + (c-1+k) mod (argc-1)`,
`k = 1..n`, in that order. -/
theorem on_about_to_finish_cycles (pb : Ptr) (d : AppData) (args : List String) (c : Nat)
    (hargv : d.argv = argvOf args) (hlen : 2 ≤ args.length)
    (hint : (args.length : Int) ≤ INT_MAX)
    (hc : d.current_uri = (c : Int)) (h1 : 1 ≤ c) (h2 : c ≤ args.length - 1) :
    (∃ s, args.get? (cycleIndex args.length c 1) = some s ∧
      on_about_to_finish pb d
        = some ({ d with current_uri := ((cycleIndex args.length c 1 : Nat) : Int) },
            [Call.g_print_now_playing (some s), Call.g_object_set_uri pb (some s)])) ∧
    cycleIndex args.length c 1 = (if c < args.length - 1 then c + 1 else 1) ∧
    1 ≤ cycleIndex args.length c 1 ∧ cycleIndex args.length c 1 ≤ args.length - 1 ∧
    (∀ n, ∃ cs, about_to_finish_times pb n d
          = some ({ d with current_uri := ((cycleIndex args.length c n : Nat) : Int) }, cs) ∧
        cs.filter isUriSet = (List.range n).map
          (fun k => Call.g_object_set_uri pb (args.get? (cycleIndex args.length c (k + 1)))) ∧
        1 ≤ cycleIndex args.length c n ∧ cycleIndex args.length c n ≤ args.length - 1) := by
  refine ⟨on_about_to_finish_step pb d args c hargv hlen hint hc h1 h2,
    cycleIndex_one args.length c h1 h2,
    (cycleIndex_range args.length c 1 hlen).1, (cycleIndex_range args.length c 1 hlen).2, ?_⟩
  intro n
  obtain ⟨cs, h, hf⟩ := about_to_finish_times_spec pb args hlen hint n d c hargv hc h1 h2
  exact ⟨cs, h, hf, (cycleIndex_range args.length c n hlen).1,
    (cycleIndex_range args.length c n hlen).2⟩

/-- C10 on the command line `player a b` with `current_uri = 2`, the last
URI: the handler wraps to index 1. -/
theorem on_about_to_finish_cycles_witness :
    2 ≤ ["player", "a", "b"].length ∧
    (∃ s, ["player", "a", "b"].get? (cycleIndex ["player", "a", "b"].length 2 1) = some s ∧
      on_about_to_finish 5
          { AppData.zero with argv := argvOf ["player", "a", "b"], current_uri := 2 }
        = some ({ AppData.zero with
                    argv := argvOf ["player", "a", "b"],
                    current_uri := ((cycleIndex ["player", "a", "b"].length 2 1 : Nat) : Int) },
            [Call.g_print_now_playing (some s), Call.g_object_set_uri 5 (some s)])) ∧
    cycleIndex ["player", "a", "b"].length 2 1 = 1 :=
  ⟨by decide,
   (on_about_to_finish_cycles 5
      { AppData.zero with argv := argvOf ["player", "a", "b"], current_uri := 2 }
      ["player", "a", "b"] 2 rfl (by decide) (by decide) rfl (by decide) (by decide)).1,
   by decide⟩

/-! ## The rectangle pushed with the window handle -/

theorem run_lastKnownRect (evs : List Event) :
    ∀ d : AppData,
      ((run true d evs).1.window_handle, (run true d evs).1.video_widget_allocation)
        = lastKnownRect d.window_handle d.video_widget_allocation evs := by
  induction evs with
  | nil => intro d; rfl
  | cons e es ih =>
    intro d
    simp only [run]
    rw [ih]
    cases e with
    | realize i => simp [step, video_widget_realize_cb, lastKnownRect]
    | draw a =>
      simp only [step, lastKnownRect]
      by_cases h0 : d.window_handle = 0
      · rw [draw_no_handle d a h0, if_pos h0]
      · by_cases hc : d.wlvideo ≠ 0 ∧ d.overlay ≠ 0 ∧ d.geometry_changing = false
        · rw [draw_opens d a h0 hc, if_neg h0]
        · rw [draw_stores_only d a h0 hc, if_neg h0]
    | after_paint =>
      simp only [step, if_true, lastKnownRect]
      by_cases h1 : d.geometry_changing = true
      · rw [after_paint_closes d h1]
      · rw [after_paint_idle d (by simpa using h1)]
    | message m =>
      simp only [step, lastKnownRect]
      rw [(bus_sync_handler_writes true d m).2.1, (bus_sync_handler_writes true d m).2.2.2.1]

/-- C5 as stated fails: a draw event that fires while no overlay target is
known and the window handle is still 0 does not store its rectangle, and the
set-rect call of a later window-handle-needed message carries the allocation
captured by the realize callback, not the rectangle of the most recent draw
event; with no draw event at all a rectangle is pushed all the same. -/
theorem set_rect_is_not_last_draw_rect :
    (video_widget_draw_cb true AppData.zero ⟨0, 0, 320, 240⟩).1.video_widget_allocation
      ≠ ⟨0, 0, 320, 240⟩ ∧
    lastDrawRect [Event.draw ⟨0, 0, 320, 240⟩, Event.realize ⟨5, 0x1234, ⟨0, 0, 640, 480⟩, 9⟩]
      = some ⟨0, 0, 320, 240⟩ ∧
    (bus_sync_handler true
        (run true AppData.zero
          [Event.draw ⟨0, 0, 320, 240⟩, Event.realize ⟨5, 0x1234, ⟨0, 0, 640, 480⟩, 9⟩]).1
        ⟨MsgKind.prepare_window_handle, 7⟩).calls.filter isSetRenderRectangle
      = [Call.gst_video_overlay_set_render_rectangle 7 0 0 640 480] ∧
    lastDrawRect [Event.realize ⟨5, 0x1234, ⟨0, 0, 640, 480⟩, 9⟩] = none ∧
    (bus_sync_handler true
        (run true AppData.zero [Event.realize ⟨5, 0x1234, ⟨0, 0, 640, 480⟩, 9⟩]).1
        ⟨MsgKind.prepare_window_handle, 7⟩).calls.filter isSetRenderRectangle
      = [Call.gst_video_overlay_set_render_rectangle 7 0 0 640 480] := by
  refine ⟨by decide, by decide, by decide, by decide, by decide⟩

/-- C5 as amended: in the Wayland build, after any event sequence from the
zero-initialised state that leaves the window handle set, a
window-handle-needed message with source `S` makes the handler call
bind-handle on `S` and then exactly one set-rect on `S`, whose rectangle is the
cached one: the allocation captured by the most recent realize event or draw
event that found the window handle set.  A draw event that finds the handle
set while `wlvideo` or `overlay` is null stores its rectangle, makes no element
call and leaves the bracket flag as it is; a draw event that finds the handle 0
stores nothing. -/
theorem set_rect_is_cached_rect (evs : List Event) (S : Ptr)
    (h : (run true AppData.zero evs).1.window_handle ≠ 0) :
    (bus_sync_handler true (run true AppData.zero evs).1
        ⟨MsgKind.prepare_window_handle, S⟩).calls
      = [Call.g_print_setting_window_handle
           (lastKnownRect 0 ⟨0, 0, 0, 0⟩ evs).2.width (lastKnownRect 0 ⟨0, 0, 0, 0⟩ evs).2.height,
         Call.gst_video_overlay_set_window_handle S (lastKnownRect 0 ⟨0, 0, 0, 0⟩ evs).1,
         Call.gst_video_overlay_set_render_rectangle S
           (lastKnownRect 0 ⟨0, 0, 0, 0⟩ evs).2.x (lastKnownRect 0 ⟨0, 0, 0, 0⟩ evs).2.y
           (lastKnownRect 0 ⟨0, 0, 0, 0⟩ evs).2.width (lastKnownRect 0 ⟨0, 0, 0, 0⟩ evs).2.height,
         Call.gst_message_unref ⟨MsgKind.prepare_window_handle, S⟩] ∧
    (bus_sync_handler true (run true AppData.zero evs).1
        ⟨MsgKind.prepare_window_handle, S⟩).calls.filter isSetRenderRectangle
      = [Call.gst_video_overlay_set_render_rectangle S
           (lastKnownRect 0 ⟨0, 0, 0, 0⟩ evs).2.x (lastKnownRect 0 ⟨0, 0, 0, 0⟩ evs).2.y
           (lastKnownRect 0 ⟨0, 0, 0, 0⟩ evs).2.width
           (lastKnownRect 0 ⟨0, 0, 0, 0⟩ evs).2.height] ∧
    (∀ (d : AppData) (R : GtkAllocation), d.window_handle ≠ 0 →
      (d.wlvideo = 0 ∨ d.overlay = 0) →
      video_widget_draw_cb true d R
        = ({ d with video_widget_allocation := R },
           [Call.g_print_draw_cb R.x R.y R.width R.height])) ∧
    (∀ (d : AppData) (R : GtkAllocation), d.window_handle = 0 →
      video_widget_draw_cb true d R = (d, [])) := by
  have hk := run_lastKnownRect evs AppData.zero
  have hk1 : (run true AppData.zero evs).1.window_handle
      = (lastKnownRect 0 ⟨0, 0, 0, 0⟩ evs).1 := congrArg Prod.fst hk
  have hk2 : (run true AppData.zero evs).1.video_widget_allocation
      = (lastKnownRect 0 ⟨0, 0, 0, 0⟩ evs).2 := congrArg Prod.snd hk
  have hcalls : (bus_sync_handler true (run true AppData.zero evs).1
        ⟨MsgKind.prepare_window_handle, S⟩).calls
      = [Call.g_print_setting_window_handle
           (lastKnownRect 0 ⟨0, 0, 0, 0⟩ evs).2.width (lastKnownRect 0 ⟨0, 0, 0, 0⟩ evs).2.height,
         Call.gst_video_overlay_set_window_handle S (lastKnownRect 0 ⟨0, 0, 0, 0⟩ evs).1,
         Call.gst_video_overlay_set_render_rectangle S
           (lastKnownRect 0 ⟨0, 0, 0, 0⟩ evs).2.x (lastKnownRect 0 ⟨0, 0, 0, 0⟩ evs).2.y
           (lastKnownRect 0 ⟨0, 0, 0, 0⟩ evs).2.width (lastKnownRect 0 ⟨0, 0, 0, 0⟩ evs).2.height,
         Call.gst_message_unref ⟨MsgKind.prepare_window_handle, S⟩] := by
    rw [← hk1, ← hk2]
    unfold bus_sync_handler
    simp [gst_is_wayland_display_handle_need_context_message,
      gst_is_video_overlay_prepare_window_handle_message, h]
  refine ⟨hcalls, ?_, ?_, ?_⟩
  · rw [hcalls]
    simp [isSetRenderRectangle]
  · intro d R h0 hn
    apply draw_stores_only d R h0
    rintro ⟨hw, ho, _⟩
    rcases hn with hn | hn
    · exact hw hn
    · exact ho hn
  · intro d R h0
    exact draw_no_handle d R h0

/-- C5 as amended, on the start-up sequence realize, draw: the rectangle
pushed is the one of the draw event. -/
theorem set_rect_is_cached_rect_witness :
    (run true AppData.zero
      [Event.realize ⟨5, 0x1234, ⟨0, 0, 640, 480⟩, 9⟩,
       Event.draw ⟨0, 0, 320, 240⟩]).1.window_handle ≠ 0 ∧
    (bus_sync_handler true
        (run true AppData.zero
          [Event.realize ⟨5, 0x1234, ⟨0, 0, 640, 480⟩, 9⟩, Event.draw ⟨0, 0, 320, 240⟩]).1
        ⟨MsgKind.prepare_window_handle, 7⟩).calls.filter isSetRenderRectangle
      = [Call.gst_video_overlay_set_render_rectangle 7 0 0 320 240] :=
  ⟨by decide,
   (set_rect_is_cached_rect
      [Event.realize ⟨5, 0x1234, ⟨0, 0, 640, 480⟩, 9⟩, Event.draw ⟨0, 0, 320, 240⟩] 7
      (by decide)).2.1⟩

/-! ## Which element the bracket calls go to -/

theorem targetWalk_append (xs ys : List Call) :
    ∀ o, targetWalk o (xs ++ ys) = (targetWalk o xs).bind (fun o1 => targetWalk o1 ys) := by
  induction xs with
  | nil => intro o; rfl
  | cons c cs ih =>
    intro o
    simp only [List.cons_append, targetWalk]
    cases targetStep o c with
    | none => rfl
    | some o1 => simpa using ih o1

theorem bus_sync_handler_targetWalk (d : AppData) (m : GstMessage) (o : Option Ptr) :
    targetWalk o (bus_sync_handler true d m).calls = some o := by
  unfold bus_sync_handler
  cases hk : m.kind <;>
    simp [gst_is_wayland_display_handle_need_context_message,
      gst_is_video_overlay_prepare_window_handle_message, hk] <;>
    (try split_ifs) <;> simp [targetWalk, targetStep]

theorem bus_sync_handler_wlvideo (d : AppData) (m : GstMessage) :
    (bus_sync_handler true d m).state.wlvideo
      = if gst_is_wayland_display_handle_need_context_message m = true ∧ d.display_handle ≠ 0
        then m.src else d.wlvideo := by
  unfold bus_sync_handler
  cases hk : m.kind <;>
    simp [gst_is_wayland_display_handle_need_context_message,
      gst_is_video_overlay_prepare_window_handle_message, hk] <;>
    (try split_ifs) <;> simp_all

theorem step_targetWalk (d : AppData) (e : Event) (h : reboundWhileOpen d [e] = false) :
    targetWalk (openedOn d) (step true d e).2 = some (openedOn (step true d e).1) := by
  cases e with
  | realize i => simp [step, video_widget_realize_cb, targetWalk, targetStep, openedOn]
  | draw a =>
    simp only [step]
    by_cases h0 : d.window_handle = 0
    · rw [draw_no_handle d a h0]; rfl
    · by_cases hc : d.wlvideo ≠ 0 ∧ d.overlay ≠ 0 ∧ d.geometry_changing = false
      · rw [draw_opens d a h0 hc]
        simp [targetWalk, targetStep, openedOn, hc.2.2]
      · rw [draw_stores_only d a h0 hc]
        simp [targetWalk, targetStep, openedOn]
  | after_paint =>
    simp only [step, if_true]
    by_cases h1 : d.geometry_changing = true
    · rw [after_paint_closes d h1]
      simp [targetWalk, targetStep, openedOn, h1]
    · rw [after_paint_idle d (by simpa using h1)]; rfl
  | message m =>
    simp only [step]
    rw [bus_sync_handler_targetWalk]
    simp only [openedOn, (bus_sync_handler_writes true d m).2.2.2.2.1, bus_sync_handler_wlvideo]
    simp only [reboundWhileOpen, Bool.or_false] at h
    by_cases hg : d.geometry_changing = true
    · simp only [hg, if_true]
      by_cases hr : gst_is_wayland_display_handle_need_context_message m = true
          ∧ d.display_handle ≠ 0
      · rw [if_pos hr]
        simp [hg, hr.1, hr.2] at h
        rw [h]
      · rw [if_neg hr]
    · simp [hg]

theorem run_targetWalk (evs : List Event) :
    ∀ d, reboundWhileOpen d evs = false →
      targetWalk (openedOn d) (run true d evs).2 = some (openedOn (run true d evs).1) := by
  induction evs with
  | nil => intro d _; rfl
  | cons e es ih =>
    intro d h
    have hsplit : reboundWhileOpen d [e] = false ∧
        reboundWhileOpen (step true d e).1 es = false := by
      cases e <;> simp_all [reboundWhileOpen]
    simp only [run]
    rw [targetWalk_append, step_targetWalk d e hsplit.1]
    simpa using ih (step true d e).1 hsplit.2

/-- C8 as stated fails: display context asked for by element 1, window handle
asked for by element 2, a draw event, display context asked for by element 3,
an after-paint event.  The begin goes to element 1, the set-rect that follows
it to element 2, and the end to element 3, which never received a begin. -/
theorem bracket_calls_reach_different_elements :
    (run true AppData.zero
        [Event.realize ⟨5, 0x1234, ⟨0, 0, 320, 240⟩, 9⟩,
         Event.message ⟨MsgKind.need_wayland_display_context, 1⟩,
         Event.message ⟨MsgKind.prepare_window_handle, 2⟩,
         Event.draw ⟨0, 0, 320, 240⟩,
         Event.message ⟨MsgKind.need_wayland_display_context, 3⟩,
         Event.after_paint]).2.filter isElementCall
      = [Call.gst_element_set_context 1 5,
         Call.gst_video_overlay_set_window_handle 2 0x1234,
         Call.gst_video_overlay_set_render_rectangle 2 0 0 320 240,
         Call.gst_wayland_video_begin_geometry_change 1,
         Call.gst_video_overlay_set_render_rectangle 2 0 0 320 240,
         Call.gst_element_set_context 3 5,
         Call.gst_wayland_video_end_geometry_change 3] ∧
    oneElementPerBracket (run true AppData.zero
        [Event.realize ⟨5, 0x1234, ⟨0, 0, 320, 240⟩, 9⟩,
         Event.message ⟨MsgKind.need_wayland_display_context, 1⟩,
         Event.message ⟨MsgKind.prepare_window_handle, 2⟩,
         Event.draw ⟨0, 0, 320, 240⟩,
         Event.message ⟨MsgKind.need_wayland_display_context, 3⟩,
         Event.after_paint]).2 = false ∧
    beginRectSameElement (run true AppData.zero
        [Event.realize ⟨5, 0x1234, ⟨0, 0, 320, 240⟩, 9⟩,
         Event.message ⟨MsgKind.need_wayland_display_context, 1⟩,
         Event.message ⟨MsgKind.prepare_window_handle, 2⟩,
         Event.draw ⟨0, 0, 320, 240⟩]).2 = false ∧
    targetWalk none (run true AppData.zero
        [Event.realize ⟨5, 0x1234, ⟨0, 0, 320, 240⟩, 9⟩,
         Event.message ⟨MsgKind.need_wayland_display_context, 1⟩,
         Event.message ⟨MsgKind.prepare_window_handle, 2⟩,
         Event.draw ⟨0, 0, 320, 240⟩,
         Event.message ⟨MsgKind.need_wayland_display_context, 3⟩,
         Event.after_paint]).2 = none := by
  refine ⟨by decide, by decide, by decide, by decide⟩

theorem bus_sync_handler_overlay (d : AppData) (m : GstMessage) :
    (bus_sync_handler true d m).state.overlay
      = if gst_is_video_overlay_prepare_window_handle_message m = true ∧ d.window_handle ≠ 0
        then m.src else d.overlay := by
  unfold bus_sync_handler
  cases hk : m.kind <;>
    simp [gst_is_wayland_display_handle_need_context_message,
      gst_is_video_overlay_prepare_window_handle_message, hk] <;>
    (try split_ifs) <;> simp_all

theorem run_geometryTargetOf (evs : List Event) :
    ∀ d : AppData,
      ((run true d evs).1.display_handle, (run true d evs).1.wlvideo)
        = geometryTargetOf d.display_handle d.wlvideo evs := by
  induction evs with
  | nil => intro d; rfl
  | cons e es ih =>
    intro d
    simp only [run]
    rw [ih]
    cases e with
    | realize i => simp [step, video_widget_realize_cb, geometryTargetOf]
    | draw a =>
      simp only [step, geometryTargetOf]
      by_cases h0 : d.window_handle = 0
      · rw [draw_no_handle d a h0]
      · by_cases hc : d.wlvideo ≠ 0 ∧ d.overlay ≠ 0 ∧ d.geometry_changing = false
        · rw [draw_opens d a h0 hc]
        · rw [draw_stores_only d a h0 hc]
    | after_paint =>
      simp only [step, if_true, geometryTargetOf]
      by_cases h1 : d.geometry_changing = true
      · rw [after_paint_closes d h1]
      · rw [after_paint_idle d (by simpa using h1)]
    | message m =>
      simp only [step, geometryTargetOf]
      rw [(bus_sync_handler_writes true d m).2.2.1, bus_sync_handler_wlvideo]

theorem run_overlayTargetOf (evs : List Event) :
    ∀ d : AppData,
      ((run true d evs).1.window_handle, (run true d evs).1.overlay)
        = overlayTargetOf d.window_handle d.overlay evs := by
  induction evs with
  | nil => intro d; rfl
  | cons e es ih =>
    intro d
    simp only [run]
    rw [ih]
    cases e with
    | realize i => simp [step, video_widget_realize_cb, overlayTargetOf]
    | draw a =>
      simp only [step, overlayTargetOf]
      by_cases h0 : d.window_handle = 0
      · rw [draw_no_handle d a h0]
      · by_cases hc : d.wlvideo ≠ 0 ∧ d.overlay ≠ 0 ∧ d.geometry_changing = false
        · rw [draw_opens d a h0 hc]
        · rw [draw_stores_only d a h0 hc]
    | after_paint =>
      simp only [step, if_true, overlayTargetOf]
      by_cases h1 : d.geometry_changing = true
      · rw [after_paint_closes d h1]
      · rw [after_paint_idle d (by simpa using h1)]
    | message m =>
      simp only [step, overlayTargetOf]
      rw [(bus_sync_handler_writes true d m).2.1, bus_sync_handler_overlay]

theorem draw_element_calls (s : AppData) (R : GtkAllocation) :
    (video_widget_draw_cb true s R).2.filter isElementCall = [] ∨
    (video_widget_draw_cb true s R).2.filter isElementCall
      = [Call.gst_wayland_video_begin_geometry_change s.wlvideo,
         Call.gst_video_overlay_set_render_rectangle s.overlay R.x R.y R.width R.height] := by
  by_cases h0 : s.window_handle = 0
  · left; rw [draw_no_handle s R h0]; rfl
  · by_cases hc : s.wlvideo ≠ 0 ∧ s.overlay ≠ 0 ∧ s.geometry_changing = false
    · right; rw [draw_opens s R h0 hc]; simp [isElementCall]
    · left; rw [draw_stores_only s R h0 hc]; simp [isElementCall]

theorem after_paint_element_calls (s : AppData) :
    (on_frame_clock_after_paint s).2.filter isElementCall = [] ∨
    (on_frame_clock_after_paint s).2.filter isElementCall
      = [Call.gst_wayland_video_end_geometry_change s.wlvideo] := by
  by_cases h1 : s.geometry_changing = true
  · right; rw [after_paint_closes s h1]; simp [isElementCall]
  · left; rw [after_paint_idle s (by simpa using h1)]; rfl

/-- C8 as amended: in the Wayland build, after every event sequence `evs`
from the zero-initialised state, `wlvideo` is the source of the latest
display-context-needed message handled with the display handle set and
`overlay` is the source of the latest window-handle-needed message handled
with the window handle set (null when there was none); a draw event then makes
either no element call or a begin-geometry-change on that `wlvideo` followed by
a set-rect on that `overlay`, two elements that may differ, and an after-paint
event makes either no element call or one end-geometry-change on that
`wlvideo`.  Over every event sequence from every state at most one bracket is
open at a time; and over a sequence in which no display-context-needed message
rebinds `wlvideo` to another element while the bracket is open, every
end-geometry-change is addressed to the element that received the begin of its
bracket. -/
theorem brackets_follow_wlvideo (d : AppData) (evs : List Event) :
    (run true AppData.zero evs).1.wlvideo = (geometryTargetOf 0 0 evs).2 ∧
    (run true AppData.zero evs).1.overlay = (overlayTargetOf 0 0 evs).2 ∧
    (∀ R : GtkAllocation,
      (video_widget_draw_cb true (run true AppData.zero evs).1 R).2.filter isElementCall = [] ∨
      (video_widget_draw_cb true (run true AppData.zero evs).1 R).2.filter isElementCall
        = [Call.gst_wayland_video_begin_geometry_change (geometryTargetOf 0 0 evs).2,
           Call.gst_video_overlay_set_render_rectangle (overlayTargetOf 0 0 evs).2
             R.x R.y R.width R.height]) ∧
    ((on_frame_clock_after_paint (run true AppData.zero evs).1).2.filter isElementCall = [] ∨
     (on_frame_clock_after_paint (run true AppData.zero evs).1).2.filter isElementCall
        = [Call.gst_wayland_video_end_geometry_change (geometryTargetOf 0 0 evs).2]) ∧
    bracketWalk d.geometry_changing (run true d evs).2
      = some (run true d evs).1.geometry_changing ∧
    (reboundWhileOpen d evs = false →
      targetWalk (openedOn d) (run true d evs).2 = some (openedOn (run true d evs).1)) ∧
    (∀ (s : AppData) (R : GtkAllocation),
      (video_widget_draw_cb true s R).2.filter isElementCall = [] ∨
      (video_widget_draw_cb true s R).2.filter isElementCall
        = [Call.gst_wayland_video_begin_geometry_change s.wlvideo,
           Call.gst_video_overlay_set_render_rectangle s.overlay R.x R.y R.width R.height]) ∧
    (∀ s : AppData,
      (on_frame_clock_after_paint s).2.filter isElementCall = [] ∨
      (on_frame_clock_after_paint s).2.filter isElementCall
        = [Call.gst_wayland_video_end_geometry_change s.wlvideo]) := by
  have hw : (run true AppData.zero evs).1.wlvideo = (geometryTargetOf 0 0 evs).2 :=
    congrArg Prod.snd (run_geometryTargetOf evs AppData.zero)
  have ho : (run true AppData.zero evs).1.overlay = (overlayTargetOf 0 0 evs).2 :=
    congrArg Prod.snd (run_overlayTargetOf evs AppData.zero)
  refine ⟨hw, ho, ?_, ?_, run_bracketWalk true evs d, run_targetWalk evs d,
    draw_element_calls, after_paint_element_calls⟩
  · intro R
    rw [← hw, ← ho]
    exact draw_element_calls _ R
  · rw [← hw]
    exact after_paint_element_calls _

/-- C8 as amended, on the sequence of the counterexample without the second
display-context-needed message: `wlvideo` is element 1 at its end, no message
rebinds it while the bracket is open, and the bracket opened on element 1 is
closed on element 1. -/
theorem brackets_follow_wlvideo_witness :
    (run true AppData.zero
        [Event.realize ⟨5, 0x1234, ⟨0, 0, 320, 240⟩, 9⟩,
         Event.message ⟨MsgKind.need_wayland_display_context, 1⟩,
         Event.message ⟨MsgKind.prepare_window_handle, 2⟩,
         Event.draw ⟨0, 0, 320, 240⟩,
         Event.after_paint]).1.wlvideo = 1 ∧
    reboundWhileOpen AppData.zero
        [Event.realize ⟨5, 0x1234, ⟨0, 0, 320, 240⟩, 9⟩,
         Event.message ⟨MsgKind.need_wayland_display_context, 1⟩,
         Event.message ⟨MsgKind.prepare_window_handle, 2⟩,
         Event.draw ⟨0, 0, 320, 240⟩,
         Event.after_paint] = false ∧
    targetWalk (openedOn AppData.zero) (run true AppData.zero
        [Event.realize ⟨5, 0x1234, ⟨0, 0, 320, 240⟩, 9⟩,
         Event.message ⟨MsgKind.need_wayland_display_context, 1⟩,
         Event.message ⟨MsgKind.prepare_window_handle, 2⟩,
         Event.draw ⟨0, 0, 320, 240⟩,
         Event.after_paint]).2
      = some (openedOn (run true AppData.zero
        [Event.realize ⟨5, 0x1234, ⟨0, 0, 320, 240⟩, 9⟩,
         Event.message ⟨MsgKind.need_wayland_display_context, 1⟩,
         Event.message ⟨MsgKind.prepare_window_handle, 2⟩,
         Event.draw ⟨0, 0, 320, 240⟩,
         Event.after_paint]).1) :=
  ⟨(brackets_follow_wlvideo AppData.zero
        [Event.realize ⟨5, 0x1234, ⟨0, 0, 320, 240⟩, 9⟩,
         Event.message ⟨MsgKind.need_wayland_display_context, 1⟩,
         Event.message ⟨MsgKind.prepare_window_handle, 2⟩,
         Event.draw ⟨0, 0, 320, 240⟩,
         Event.after_paint]).1,
   by decide,
   (brackets_follow_wlvideo AppData.zero
        [Event.realize ⟨5, 0x1234, ⟨0, 0, 320, 240⟩, 9⟩,
         Event.message ⟨MsgKind.need_wayland_display_context, 1⟩,
         Event.message ⟨MsgKind.prepare_window_handle, 2⟩,
         Event.draw ⟨0, 0, 320, 240⟩,
         Event.after_paint]).2.2.2.2.2.1 (by decide)⟩

/-! ## A pending bracket has a target -/

theorem step_pending_has_target (d : AppData) (e : Event) (hsrc : sourceNonNull e = true)
    (hnr : isRealize e = false)
    (hJ : d.geometry_changing = true →
      d.wlvideo ≠ 0 ∧ d.overlay ≠ 0 ∧ d.window_handle ≠ 0) :
    ((step true d e).1.geometry_changing = true →
      (step true d e).1.wlvideo ≠ 0 ∧ (step true d e).1.overlay ≠ 0 ∧
      (step true d e).1.window_handle ≠ 0) ∧
    Call.gst_wayland_video_end_geometry_change 0 ∉ (step true d e).2 ∧
    (step true d e).1.window_handle = d.window_handle := by
  cases e with
  | realize i => simp [isRealize] at hnr
  | draw a =>
    simp only [step]
    by_cases h0 : d.window_handle = 0
    · rw [draw_no_handle d a h0]
      exact ⟨hJ, by simp, rfl⟩
    · by_cases hc : d.wlvideo ≠ 0 ∧ d.overlay ≠ 0 ∧ d.geometry_changing = false
      · rw [draw_opens d a h0 hc]
        exact ⟨fun _ => ⟨hc.1, hc.2.1, h0⟩, by simp, rfl⟩
      · rw [draw_stores_only d a h0 hc]
        exact ⟨hJ, by simp, rfl⟩
  | after_paint =>
    simp only [step, if_true]
    by_cases h1 : d.geometry_changing = true
    · rw [after_paint_closes d h1]
      refine ⟨by simp, ?_, rfl⟩
      have hw := (hJ h1).1
      simp only [List.mem_cons, reduceCtorEq, List.mem_singleton,
        Call.gst_wayland_video_end_geometry_change.injEq, false_or, List.not_mem_nil, or_false]
      exact fun hh => hw hh.symm
    · rw [after_paint_idle d (by simpa using h1)]
      exact ⟨hJ, by simp, rfl⟩
  | message m =>
    simp only [step]
    have hf := bus_sync_handler_writes true d m
    refine ⟨?_, ?_, hf.2.1⟩
    · rw [hf.2.2.2.2.1, hf.2.1]
      intro hg
      refine ⟨?_, ?_, (hJ hg).2.2⟩
      · rw [bus_sync_handler_wlvideo]
        split_ifs with hr
        · simp only [sourceNonNull, recognised, hr.1, Bool.and_self, Bool.true_or,
            Bool.not_true, Bool.false_or, decide_eq_true_eq] at hsrc
          exact hsrc
        · exact (hJ hg).1
      · rw [bus_sync_handler_overlay]
        split_ifs with hr
        · simp only [sourceNonNull, recognised, hr.1, Bool.or_true,
            Bool.not_true, Bool.false_or, decide_eq_true_eq] at hsrc
          exact hsrc
        · exact (hJ hg).2.1
    · intro hmem
      have := hf.2.2.2.2.2.2 _ hmem
      simp [isGeometryChange] at this

theorem run_pending_has_target (evs : List Event) :
    ∀ d : AppData, (∀ e ∈ evs, sourceNonNull e = true) →
      realizeCount evs ≤ 1 →
      (d.window_handle ≠ 0 → realizeCount evs = 0) →
      (d.geometry_changing = true → d.wlvideo ≠ 0 ∧ d.overlay ≠ 0 ∧ d.window_handle ≠ 0) →
      ((run true d evs).1.geometry_changing = true →
        (run true d evs).1.wlvideo ≠ 0 ∧ (run true d evs).1.overlay ≠ 0 ∧
        (run true d evs).1.window_handle ≠ 0) ∧
      Call.gst_wayland_video_end_geometry_change 0 ∉ (run true d evs).2 := by
  induction evs with
  | nil => intro d _ _ _ hJ; exact ⟨hJ, by simp [run]⟩
  | cons e es ih =>
    intro d hsrc hcnt hset hJ
    have hsrc2 : ∀ x ∈ es, sourceNonNull x = true :=
      fun x hx => hsrc x (List.mem_cons_of_mem _ hx)
    by_cases hr : isRealize e = true
    · have hc0 : realizeCount es = 0 := by
        simp only [realizeCount, hr, if_true] at hcnt
        omega
      have hh : d.window_handle = 0 := by
        by_contra hne
        have := hset hne
        simp only [realizeCount, hr, if_true] at this
        omega
      have hg : d.geometry_changing ≠ true := fun hg => (hJ hg).2.2 hh
      cases e with
      | realize i =>
        have hstep : step true d (Event.realize i)
            = ({ d with display_handle := i.display, window_handle := i.window,
                        video_widget_allocation := i.allocation },
               [Call.g_signal_connect_after_paint i.frame_clock]) := by
          simp [step, video_widget_realize_cb]
        have hrun := ih (step true d (Event.realize i)).1 hsrc2 (by omega) (fun _ => hc0)
          (by rw [hstep]; intro hg2; exact absurd hg2 hg)
        simp only [run]
        refine ⟨hrun.1, ?_⟩
        rw [List.mem_append]
        rintro (hm | hm)
        · rw [hstep] at hm
          simp at hm
        · exact hrun.2 hm
      | draw a => simp [isRealize] at hr
      | after_paint => simp [isRealize] at hr
      | message m => simp [isRealize] at hr
    · have hr0 : isRealize e = false := by simpa using hr
      have hs := step_pending_has_target d e (hsrc e (List.mem_cons_self _ _)) hr0 hJ
      have hce : realizeCount (e :: es) = realizeCount es := by
        simp [realizeCount, hr0]
      have hrun := ih (step true d e).1 hsrc2 (by omega)
        (by rw [hs.2.2]; intro hne; have := hset hne; omega) hs.1
      simp only [run]
      refine ⟨hrun.1, ?_⟩
      rw [List.mem_append]
      rintro (hm | hm)
      · exact hs.2.1 hm
      · exact hrun.2 hm

/-- C9: in the Wayland build, in every state reached from the zero-initialised
state by a sequence of realize, draw, after-paint and bus-message events as the
toolkit and the pipeline deliver them (the realize signal fires at most once, a
message of a recognised kind carries a reference to the element it comes
from), `geometry_changing` set implies that `wlvideo` and `overlay` are
non-null and the window handle is non-zero; and no end-geometry-change call of
the sequence is addressed to the null target. -/
theorem pending_bracket_has_target (evs : List Event)
    (hsrc : ∀ e ∈ evs, sourceNonNull e = true) (hone : realizeCount evs ≤ 1) :
    ((run true AppData.zero evs).1.geometry_changing = true →
      (run true AppData.zero evs).1.wlvideo ≠ 0 ∧
      (run true AppData.zero evs).1.overlay ≠ 0 ∧
      (run true AppData.zero evs).1.window_handle ≠ 0) ∧
    Call.gst_wayland_video_end_geometry_change 0 ∉ (run true AppData.zero evs).2 :=
  run_pending_has_target evs AppData.zero hsrc hone
    (fun h => absurd rfl h) (by simp [AppData.zero])

/-- C9 on a sequence that ends with the bracket open: realize, display context
for element 1, window handle for element 2, draw. -/
theorem pending_bracket_has_target_witness :
    (∀ e ∈ [Event.realize ⟨5, 0x1234, ⟨0, 0, 320, 240⟩, 9⟩,
            Event.message ⟨MsgKind.need_wayland_display_context, 1⟩,
            Event.message ⟨MsgKind.prepare_window_handle, 2⟩,
            Event.draw ⟨0, 0, 320, 240⟩], sourceNonNull e = true) ∧
    realizeCount [Event.realize ⟨5, 0x1234, ⟨0, 0, 320, 240⟩, 9⟩,
            Event.message ⟨MsgKind.need_wayland_display_context, 1⟩,
            Event.message ⟨MsgKind.prepare_window_handle, 2⟩,
            Event.draw ⟨0, 0, 320, 240⟩] ≤ 1 ∧
    (run true AppData.zero
        [Event.realize ⟨5, 0x1234, ⟨0, 0, 320, 240⟩, 9⟩,
         Event.message ⟨MsgKind.need_wayland_display_context, 1⟩,
         Event.message ⟨MsgKind.prepare_window_handle, 2⟩,
         Event.draw ⟨0, 0, 320, 240⟩]).1.geometry_changing = true ∧
    (run true AppData.zero
        [Event.realize ⟨5, 0x1234, ⟨0, 0, 320, 240⟩, 9⟩,
         Event.message ⟨MsgKind.need_wayland_display_context, 1⟩,
         Event.message ⟨MsgKind.prepare_window_handle, 2⟩,
         Event.draw ⟨0, 0, 320, 240⟩]).1.wlvideo ≠ 0 :=
  ⟨by decide, by decide, by decide,
   ((pending_bracket_has_target
        [Event.realize ⟨5, 0x1234, ⟨0, 0, 320, 240⟩, 9⟩,
         Event.message ⟨MsgKind.need_wayland_display_context, 1⟩,
         Event.message ⟨MsgKind.prepare_window_handle, 2⟩,
         Event.draw ⟨0, 0, 320, 240⟩] (by decide) (by decide)).1 (by decide)).1⟩

end GstGtkPlayer
